import Mathlib

/-
Shallow embedding of src/case 3/main.py, a FastAPI service that forwards
patient data (gender, age, symptoms) to an LLM chain and returns a
recommended hospital department.  Pure data flow of the module and of the
request handler recommend_department is modelled; the external LLM chain is
a parameter (a function from the chain input to an outcome), since its
behaviour is outside the program.
-/

namespace Triage

/-- JSON values, as produced by Python json parsing of the LLM output
inside JsonOutputParser.  Objects are association lists of string keys. -/
inductive Json where
  | null : Json
  | bool (b : Bool) : Json
  | num (n : Int) : Json
  | str (s : String) : Json
  | arr (elts : List Json) : Json
  | obj (fields : List (String × Json)) : Json

/-- Key lookup in a JSON object.  Python dicts coming from json.loads keep
the last of any duplicate keys, so the last binding wins. -/
def Json.lookup (fields : List (String × Json)) (k : String) : Option Json :=
  match fields with
  | [] => none
  | (k2, v) :: rest =>
    match Json.lookup rest k with
    | some v2 => some v2
    | none => if k2 = k then some v else none

/-- The request body schema PatientInfo (main.py lines 26-32): gender is a
string, age an integer, symptoms a list of strings. -/
structure PatientInfo where
  gender : String
  age : Int
  symptoms : List String

/-- The dict chain_input built by recommend_department (main.py lines
119-123) and fed to recommendation_chain.ainvoke: gender and age are passed
through, symptoms is the single string produced by the join of the list. -/
structure ChainInput where
  gender : String
  age : Int
  symptoms : String

/-- Python exceptions that can arise during the try block of
recommend_department: the HTTPException of FastAPI, the
OutputParserException of langchain_core, the ValidationError of pydantic,
and any other exception.  All four are subclasses of Exception. -/
inductive PyExc where
  | httpException (statusCode : Nat) (detail : String)
  | outputParserException (msg : String)
  | validationError (msg : String)
  | otherException (msg : String)

/-- Python str() of an exception.  Starlette defines HTTPException.__str__
as the status code, a colon and a space, and the detail; for the others the
message itself. -/
def PyExc.toStr : PyExc → String
  | .httpException st d => toString st ++ ": " ++ d
  | .outputParserException m => m
  | .validationError m => m
  | .otherException m => m

/-- Outcome of awaiting recommendation_chain.ainvoke: either a parsed JSON
value (the output of JsonOutputParser) or a raised exception. -/
inductive ChainOutcome where
  | ok (json : Json)
  | raises (e : PyExc)

/-- Result of the handler as seen by the client: a 200 response with a JSON
body, or an HTTPException with a status code and a detail string. -/
inductive HandlerResult where
  | success (body : Json)
  | httpError (statusCode : Nat) (detail : String)

/-- The status code of a handler result, none on success. -/
def HandlerResult.status : HandlerResult → Option Nat
  | .success _ => none
  | .httpError st _ => some st

/-- Detail string of the HTTPException raised by the inner except
ValidationError handler (main.py lines 130-134). -/
def validationFailedDetail (ve : String) : String :=
  "LLM response validation failed: " ++ ve

/-- Detail string of the HTTPException raised by the except
OutputParserException clause (main.py lines 140-146). -/
def parseFailedDetail (e : String) : String :=
  "LLM output could not be parsed. This often means the LLM did not return valid JSON or did not follow the schema. Error: " ++ e

/-- Detail string of the HTTPException raised by the except Exception
clause (main.py lines 147-153). -/
def genericErrorDetail (e : String) : String :=
  "An internal server error occurred: " ++ e ++ ". Please check the server logs. Ensure the correct LLM model ID is specified and your API key is valid."

/-- Construction of chain_input from the request body (main.py lines
119-123): symptoms joined into one string with a comma and a space. -/
def mkChainInput (p : PatientInfo) : ChainInput :=
  { gender := p.gender, age := p.age,
    symptoms := String.intercalate ", " p.symptoms }

/-- The human message of the prompt template (main.py lines 77-84) after
substitution of gender, age and symptoms from the chain input; Python
format renders the integer age with str. -/
def humanMessage (ci : ChainInput) : String :=
  "Patient Gender: " ++ ci.gender ++ "\n" ++
  "Patient Age: " ++ toString ci.age ++ "\n" ++
  "Patient Symptoms (Bahasa Indonesia): " ++ ci.symptoms ++ "\n\n" ++
  "Based on this information, what is the recommended department?"

/-- Pydantic validation LLMDepartmentOutput(**raw_response) (main.py line
129): succeeds exactly when the value is a JSON object whose field
recommended_department is a string (pydantic does not coerce numbers,
booleans or null to str, and extra fields are ignored); a missing or
non-string field raises ValidationError.  Unpacking a non-mapping with **
raises a TypeError, which is not a ValidationError. -/
def validateLLMOutput : Json → Except PyExc String
  | Json.obj fields =>
    match Json.lookup fields "recommended_department" with
    | some (Json.str s) => Except.ok s
    | some _ => Except.error (PyExc.validationError
        "1 validation error for LLMDepartmentOutput: recommended_department: Input should be a valid string")
    | none => Except.error (PyExc.validationError
        "1 validation error for LLMDepartmentOutput: recommended_department: Field required")
  | _ => Except.error (PyExc.otherException
      "argument after ** must be a mapping")

/-- The try block of recommend_department (main.py lines 118-138): build
chain_input, invoke the chain once, validate the parsed output under the
inner try whose except ValidationError re-raises an HTTPException with
status 500, and on success build the DepartmentRecommendation response,
serialised as a JSON object with the single key recommended_department.
Exceptions escaping the block are returned as Except.error; the second
component records every invocation of the chain made by the block. -/
def tryBlock (p : PatientInfo) (chain : ChainInput → ChainOutcome) :
    Except PyExc Json × List ChainInput :=
  let ci := mkChainInput p
  let result : Except PyExc Json :=
    match chain ci with
    | ChainOutcome.raises e => Except.error e
    | ChainOutcome.ok rawResponse =>
      match validateLLMOutput rawResponse with
      | Except.error (PyExc.validationError ve) =>
          Except.error (PyExc.httpException 500 (validationFailedDetail ve))
      | Except.error e => Except.error e
      | Except.ok s =>
          Except.ok (Json.obj [("recommended_department", Json.str s)])
  (result, [ci])

/-- The except clauses of recommend_department (main.py lines 140-153): an
OutputParserException is mapped to an HTTPException with status 500 and the
parse-failure detail; every other exception, the HTTPException raised by
the inner validation handler included, is caught by except Exception and
mapped to an HTTPException with status 500 and the generic detail built
from str of the exception. -/
def handleExc : PyExc → HandlerResult
  | PyExc.outputParserException m =>
      HandlerResult.httpError 500 (parseFailedDetail m)
  | e => HandlerResult.httpError 500 (genericErrorDetail (PyExc.toStr e))

/-- The handler recommend_department (main.py lines 105-153): run the try
block; a value returned becomes the success response, an exception raised
is dispatched to the except clauses.  The second component is the list of
chain invocations performed during the request. -/
def recommend_department (p : PatientInfo) (chain : ChainInput → ChainOutcome) :
    HandlerResult × List ChainInput :=
  ((match (tryBlock p chain).1 with
    | Except.ok body => HandlerResult.success body
    | Except.error e => handleExc e),
   (tryBlock p chain).2)

/-- Python truthiness of the os.getenv result (main.py line 19): None and
the empty string are falsy, every other string is truthy. -/
def apiKeyTruthy : Option String → Bool
  | none => false
  | some s => s != ""

/-- The module-level objects built after the API-key check succeeds: the
LLM client holding the key and the model id, and then the FastAPI app. -/
structure AppState where
  googleApiKey : String
  modelId : String

/-- The Gemini model id (main.py line 51). -/
def GEMINI_MODEL_ID : String := "models/gemini-1.5-flash"

/-- Module initialisation (top level of main.py, lines 14-96): read
GOOGLE_API_KEY from the environment; if it is falsy raise ValueError, so
the LLM client and the FastAPI app are never created and the endpoint is
never served; otherwise build them. -/
def moduleInit (env : String → Option String) : Except String AppState :=
  let key := env "GOOGLE_API_KEY"
  if apiKeyTruthy key then
    Except.ok { googleApiKey := key.getD "", modelId := GEMINI_MODEL_ID }
  else
    Except.error "GOOGLE_API_KEY not found in environment variables."

/-- The generic detail and the validation-failure detail are different
strings: the first starts with the letter A, the second with the letter L. -/
theorem genericDetail_ne_validationDetail (m ve : String) :
    genericErrorDetail m ≠ validationFailedDetail ve := by
  intro h
  have h2 := congrArg (fun s => s.data.head?) h
  simp only [genericErrorDetail, validationFailedDetail, String.data_append] at h2
  simp at h2

/-- C1: if the chain's response is a JSON object whose field
recommended_department is a string, the handler returns a success body that
is a JSON object with exactly that one key, mapped to the same string. -/
theorem C1_valid_output_returned_unchanged
    (p : PatientInfo) (chain : ChainInput → ChainOutcome)
    (fields : List (String × Json)) (s : String)
    (hchain : chain (mkChainInput p) = ChainOutcome.ok (Json.obj fields))
    (hs : Json.lookup fields "recommended_department" = some (Json.str s)) :
    (recommend_department p chain).1 =
      HandlerResult.success (Json.obj [("recommended_department", Json.str s)]) := by
  simp [recommend_department, tryBlock, hchain, validateLLMOutput, hs]

/-- Witness for C1 at a concrete request and chain response. -/
theorem C1_valid_output_returned_unchanged_witness :
    (recommend_department ⟨"male", 30, ["demam", "batuk"]⟩
        (fun _ => ChainOutcome.ok
          (Json.obj [("recommended_department", Json.str "Neurology")]))).1 =
      HandlerResult.success
        (Json.obj [("recommended_department", Json.str "Neurology")]) :=
  C1_valid_output_returned_unchanged _ _ _ _ rfl rfl

/-- C2: if the chain raises OutputParserException, the handler fails with
status 500 and the detail built from the parse-failure message, which
states that the LLM output could not be parsed. -/
theorem C2_parse_failure_is_500
    (p : PatientInfo) (chain : ChainInput → ChainOutcome) (m : String)
    (hchain : chain (mkChainInput p) =
      ChainOutcome.raises (PyExc.outputParserException m)) :
    (recommend_department p chain).1 =
      HandlerResult.httpError 500 (parseFailedDetail m) := by
  simp [recommend_department, tryBlock, hchain, handleExc]

/-- Witness for C2 at a concrete request and a malformed chain output. -/
theorem C2_parse_failure_is_500_witness :
    (recommend_department ⟨"female", 25, ["pusing"]⟩
        (fun _ => ChainOutcome.raises
          (PyExc.outputParserException "Invalid json output"))).1 =
      HandlerResult.httpError 500 (parseFailedDetail "Invalid json output") :=
  C2_parse_failure_is_500 _ _ _ rfl

/-- If the object misses the field recommended_department or holds it at a
non-string value, pydantic validation fails with a ValidationError. -/
theorem validateLLMOutput_bad (fields : List (String × Json))
    (hbad : ∀ s, Json.lookup fields "recommended_department" ≠
      some (Json.str s)) :
    ∃ ve, validateLLMOutput (Json.obj fields) =
      Except.error (PyExc.validationError ve) := by
  cases hl : Json.lookup fields "recommended_department" with
  | none =>
    exact ⟨"1 validation error for LLMDepartmentOutput: recommended_department: Field required",
      by simp [validateLLMOutput, hl]⟩
  | some v =>
    cases v with
    | str s => exact absurd hl (hbad s)
    | null =>
      exact ⟨"1 validation error for LLMDepartmentOutput: recommended_department: Input should be a valid string",
        by simp [validateLLMOutput, hl]⟩
    | bool b =>
      exact ⟨"1 validation error for LLMDepartmentOutput: recommended_department: Input should be a valid string",
        by simp [validateLLMOutput, hl]⟩
    | num n =>
      exact ⟨"1 validation error for LLMDepartmentOutput: recommended_department: Input should be a valid string",
        by simp [validateLLMOutput, hl]⟩
    | arr elts =>
      exact ⟨"1 validation error for LLMDepartmentOutput: recommended_department: Input should be a valid string",
        by simp [validateLLMOutput, hl]⟩
    | obj fs =>
      exact ⟨"1 validation error for LLMDepartmentOutput: recommended_department: Input should be a valid string",
        by simp [validateLLMOutput, hl]⟩

/-- C3: if the chain's response is a JSON object that misses the field
recommended_department, or holds it at a non-string value, the handler
fails with status 500. -/
theorem C3_schema_failure_is_500
    (p : PatientInfo) (chain : ChainInput → ChainOutcome)
    (fields : List (String × Json))
    (hchain : chain (mkChainInput p) = ChainOutcome.ok (Json.obj fields))
    (hbad : ∀ s, Json.lookup fields "recommended_department" ≠
      some (Json.str s)) :
    (recommend_department p chain).1.status = some 500 := by
  obtain ⟨ve, hve⟩ := validateLLMOutput_bad fields hbad
  simp [recommend_department, tryBlock, hchain, hve, handleExc,
    HandlerResult.status]

/-- Witness for C3 at a concrete request and a chain response lacking the
required field. -/
theorem C3_schema_failure_is_500_witness :
    (recommend_department ⟨"male", 41, ["batuk"]⟩
        (fun _ => ChainOutcome.ok
          (Json.obj [("department", Json.str "Neurology")]))).1.status =
      some 500 :=
  C3_schema_failure_is_500 _ _ _ rfl (by intro s; simp [Json.lookup])

/-- C4: every failure of the handler, whatever the exception, carries the
status code 500 and no other. -/
theorem C4_every_failure_is_500
    (p : PatientInfo) (chain : ChainInput → ChainOutcome)
    (st : Nat) (d : String)
    (h : (recommend_department p chain).1 = HandlerResult.httpError st d) :
    st = 500 := by
  have hall : ∀ e, ∃ d2, handleExc e = HandlerResult.httpError 500 d2 := by
    intro e
    cases e with
    | httpException st2 d2 => exact ⟨_, rfl⟩
    | outputParserException m => exact ⟨_, rfl⟩
    | validationError m => exact ⟨_, rfl⟩
    | otherException m => exact ⟨_, rfl⟩
  unfold recommend_department at h
  cases hr : (tryBlock p chain).1 with
  | ok body => rw [hr] at h; simp at h
  | error e =>
    rw [hr] at h
    obtain ⟨d2, hd2⟩ := hall e
    simp only [hd2, HandlerResult.httpError.injEq] at h
    exact h.1.symm

/-- Witness for C4 at a concrete request and a chain raising a generic
exception. -/
theorem C4_every_failure_is_500_witness : (500 : Nat) = 500 :=
  C4_every_failure_is_500 ⟨"male", 30, []⟩
    (fun _ => ChainOutcome.raises (PyExc.otherException "boom"))
    500 (genericErrorDetail "boom") rfl

/-- C5: when GOOGLE_API_KEY is absent from the environment, module
initialisation raises ValueError, so no AppState (LLM client and FastAPI
app) is ever built and the endpoint is never served. -/
theorem C5_missing_key_prevents_startup (env : String → Option String)
    (h : env "GOOGLE_API_KEY" = none) :
    moduleInit env =
      Except.error "GOOGLE_API_KEY not found in environment variables." := by
  simp [moduleInit, h, apiKeyTruthy]

/-- Witness for C5 at the empty environment. -/
theorem C5_missing_key_prevents_startup_witness :
    moduleInit (fun _ => none) =
      Except.error "GOOGLE_API_KEY not found in environment variables." :=
  C5_missing_key_prevents_startup _ rfl

/-- C6: the handler invokes the chain exactly once, on the input whose
symptoms component is the symptoms list joined with a comma and a space,
and the prompt template substitutes gender, age and that joined string
into the fixed human-message text. -/
theorem C6_single_invocation_with_joined_symptoms
    (p : PatientInfo) (chain : ChainInput → ChainOutcome) :
    (recommend_department p chain).2 = [mkChainInput p] ∧
    (mkChainInput p).symptoms = String.intercalate ", " p.symptoms ∧
    (mkChainInput p).gender = p.gender ∧
    (mkChainInput p).age = p.age ∧
    humanMessage (mkChainInput p) =
      "Patient Gender: " ++ p.gender ++ "\n" ++
      "Patient Age: " ++ toString p.age ++ "\n" ++
      "Patient Symptoms (Bahasa Indonesia): " ++
        String.intercalate ", " p.symptoms ++ "\n\n" ++
      "Based on this information, what is the recommended department?" :=
  ⟨rfl, rfl, rfl, rfl, rfl⟩

/-- C7: the department string returned by the chain is not checked against
any set of departments nor for non-emptiness: any string, the empty string
included, is returned as-is in a success response. -/
theorem C7_no_department_check
    (p : PatientInfo) (chain : ChainInput → ChainOutcome) (s : String)
    (hchain : chain (mkChainInput p) = ChainOutcome.ok
      (Json.obj [("recommended_department", Json.str s)])) :
    (recommend_department p chain).1 =
      HandlerResult.success
        (Json.obj [("recommended_department", Json.str s)]) := by
  simp [recommend_department, tryBlock, hchain, validateLLMOutput,
    Json.lookup]

/-- Witness for C7 at the empty department string. -/
theorem C7_no_department_check_witness :
    (recommend_department ⟨"female", 8, ["demam"]⟩
        (fun _ => ChainOutcome.ok
          (Json.obj [("recommended_department", Json.str "")]))).1 =
      HandlerResult.success
        (Json.obj [("recommended_department", Json.str "")]) :=
  C7_no_department_check _ _ _ rfl

/-- C8: the handler is deterministic and stateless: it reads and writes no
mutable state, so two runs given the same request body and the same chain
response to the single input it is invoked on produce the same result and
the same invocation list. -/
theorem C8_stateless_deterministic
    (p1 p2 : PatientInfo) (c1 c2 : ChainInput → ChainOutcome)
    (hp : p1 = p2)
    (hc : c1 (mkChainInput p1) = c2 (mkChainInput p2)) :
    recommend_department p1 c1 = recommend_department p2 c2 := by
  subst hp
  simp only [recommend_department, tryBlock, hc]

/-- Witness for C8 at a concrete request run twice against the same chain
response. -/
theorem C8_stateless_deterministic_witness :
    recommend_department ⟨"male", 30, ["demam"]⟩
        (fun _ => ChainOutcome.ok
          (Json.obj [("recommended_department", Json.str "Neurology")])) =
      recommend_department ⟨"male", 30, ["demam"]⟩
        (fun _ => ChainOutcome.ok
          (Json.obj [("recommended_department", Json.str "Neurology")])) :=
  C8_stateless_deterministic _ _ _ _ rfl rfl

/-- C9: an API key set to the empty string is falsy, exactly like a missing
key: module initialisation raises the same ValueError and behaves the same
as with no key at all. -/
theorem C9_empty_key_like_missing (env : String → Option String)
    (h : env "GOOGLE_API_KEY" = some "") :
    moduleInit env =
        Except.error "GOOGLE_API_KEY not found in environment variables." ∧
    moduleInit env = moduleInit (fun _ => none) := by
  refine ⟨?_, ?_⟩ <;> simp [moduleInit, h, apiKeyTruthy]

/-- Witness for C9 at the environment holding the empty key. -/
theorem C9_empty_key_like_missing_witness :
    moduleInit (fun _ => some "") =
        Except.error "GOOGLE_API_KEY not found in environment variables." ∧
    moduleInit (fun _ => some "") = moduleInit (fun _ => none) :=
  C9_empty_key_like_missing _ rfl

/-- C10: a schema-validation failure never delivers the distinct
validation-failure detail to the client: the HTTPException raised by the
inner handler is caught by the outer except Exception clause, so the
client receives status 500 with the generic detail (which embeds str of
the inner exception), not the validation-failure detail itself. -/
theorem C10_validation_detail_swallowed
    (p : PatientInfo) (chain : ChainInput → ChainOutcome)
    (fields : List (String × Json)) (ve : String)
    (hchain : chain (mkChainInput p) = ChainOutcome.ok (Json.obj fields))
    (hval : validateLLMOutput (Json.obj fields) =
      Except.error (PyExc.validationError ve)) :
    (recommend_department p chain).1 =
      HandlerResult.httpError 500
        (genericErrorDetail
          (PyExc.toStr (PyExc.httpException 500 (validationFailedDetail ve)))) ∧
    (recommend_department p chain).1 ≠
      HandlerResult.httpError 500 (validationFailedDetail ve) := by
  have heq : (recommend_department p chain).1 =
      HandlerResult.httpError 500
        (genericErrorDetail
          (PyExc.toStr (PyExc.httpException 500 (validationFailedDetail ve)))) := by
    simp [recommend_department, tryBlock, hchain, hval, handleExc]
  refine ⟨heq, ?_⟩
  rw [heq]
  intro h
  have hd := (HandlerResult.httpError.injEq .. ▸ h).2
  exact genericDetail_ne_validationDetail _ _ hd

/-- Witness for C10 at a concrete request and a chain response lacking the
required field. -/
theorem C10_validation_detail_swallowed_witness :
    (recommend_department ⟨"male", 55, ["nyeri dada"]⟩
        (fun _ => ChainOutcome.ok (Json.obj []))).1 =
      HandlerResult.httpError 500
        (genericErrorDetail
          (PyExc.toStr (PyExc.httpException 500
            (validationFailedDetail
              "1 validation error for LLMDepartmentOutput: recommended_department: Field required")))) ∧
    (recommend_department ⟨"male", 55, ["nyeri dada"]⟩
        (fun _ => ChainOutcome.ok (Json.obj []))).1 ≠
      HandlerResult.httpError 500
        (validationFailedDetail
          "1 validation error for LLMDepartmentOutput: recommended_department: Field required") :=
  C10_validation_detail_swallowed _ _ _ _ rfl rfl

end Triage
